import Mathlib

/-!
Verification of the disk-scheduling core of `disk_scheduling.c`.

The C program operates on a 300-cylinder disk. Its core consists of six
scheduling routines (FCFS, SSTF, SCAN, C-SCAN, LOOK, C-LOOK), a movement
accumulator `compute_movement`, and a split locator `find_index`. The C
code fixes the request count by the macro `NUM_REQUESTS`; in this shallow
embedding the request array is a `List Int` and every loop bounded by
`NUM_REQUESTS` in the source is bounded by the list length, so the same
definitions cover the program's fixed 20-request configuration and the
8-request worked example. C `int` values are embedded as `Int`; array
reads `a[i]` become `List.getD a i 0`.
-/

namespace DiskSched

/-- Embeds `#define NUM_CYLINDERS 300`. -/
def NUM_CYLINDERS : Int := 300

/-- Embeds the C enum with constants `DIR_LEFT` and `DIR_RIGHT`. -/
inductive Direction where
  | DIR_LEFT : Direction
  | DIR_RIGHT : Direction
deriving DecidableEq

/-- The loop of `compute_movement`: carries the current head position and
the running total, exactly as the C `for` loop does. -/
def movementLoop : List Int → Int → Int → Int
  | [], _, total => total
  | x :: rest, head, total => movementLoop rest x (total + |x - head|)

/-- Embeds `int compute_movement(int seq[], int len, int start)`; `len` is the
length of the embedded list. -/
def compute_movement (seq : List Int) (start : Int) : Int :=
  movementLoop seq start 0

/-- The `Result` struct: the serviced order (`seq`, whose length is the C
field `len`) and the total head movement. -/
structure Result where
  seq : List Int
  movement : Int
deriving DecidableEq

/-- Embeds `Result schedule_fcfs(int req[], int start)`: copies the requests in
arrival order and computes their movement. -/
def schedule_fcfs (req : List Int) (start : Int) : Result :=
  { seq := req, movement := compute_movement req start }

/-- The inner candidate scan of `schedule_sstf`: walks the index list
carrying the accumulator `(bestDist, bestIdx)`, skipping visited indices,
and lets only a strictly smaller distance displace the current best.
`bestIdx` is an `Int` because the C code initialises it to `-1`. -/
def scanLoop (req : List Int) (visited : List Bool) (head : Int) :
    List Nat → Int × Int → Int × Int
  | [], best => best
  | i :: rest, (bestDist, bestIdx) =>
    if visited.getD i true then scanLoop req visited head rest (bestDist, bestIdx)
    else if |req.getD i 0 - head| < bestDist then
      scanLoop req visited head rest (|req.getD i 0 - head|, (i : Int))
    else scanLoop req visited head rest (bestDist, bestIdx)

/-- One execution of the inner `for (i = 0; i < NUM_REQUESTS; i++)` scan of
`schedule_sstf`, started from `bestDist = 1e9`, `bestIdx = -1`. -/
def sstfScan (req : List Int) (visited : List Bool) (head : Int) : Int × Int :=
  scanLoop req visited head (List.range req.length) (1000000000, -1)

/-- The outer `while (count < NUM_REQUESTS)` loop of `schedule_sstf`: the
fuel argument is `NUM_REQUESTS - count`.  Each iteration selects
`bestIdx`, marks it visited, emits `req[bestIdx]` and moves the head
there. -/
def sstfLoop (req : List Int) : Nat → List Bool → Int → List Int
  | 0, _, _ => []
  | Nat.succ n, visited, head =>
    let bestIdx := (sstfScan req visited head).2.toNat
    req.getD bestIdx 0 :: sstfLoop req n (visited.set bestIdx true) (req.getD bestIdx 0)

/-- Embeds `Result schedule_sstf(int req[], int start)`: `visited` starts all
false (`int visited[NUM_REQUESTS] = {0}`). -/
def schedule_sstf (req : List Int) (start : Int) : Result :=
  { seq := sstfLoop req req.length (List.replicate req.length false) start,
    movement := compute_movement
      (sstfLoop req req.length (List.replicate req.length false) start) start }

/-- Embeds `int find_index(int sorted[], int n, int start)`: first index whose
entry is `>= start`, or the length when there is none. -/
def find_index : List Int → Int → Nat
  | [], _ => 0
  | x :: rest, start => if start ≤ x then 0 else find_index rest start + 1

/-- Ascending emission `for (i = lo; i < hi; i++) emit sorted[i]`, with
the remaining iteration count `hi - lo` as structural fuel. -/
def upSweepAux (sorted : List Int) : Nat → Nat → List Int
  | _, 0 => []
  | i, Nat.succ fuel => sorted.getD i 0 :: upSweepAux sorted (i + 1) fuel

/-- The C loop `for (i = lo; i < hi; i++) emit sorted[i]`. -/
def upSweep (sorted : List Int) (lo hi : Nat) : List Int :=
  upSweepAux sorted lo (hi - lo)

/-- The C loop `for (i = hi - 1; i >= lo; i--) emit sorted[i]`. -/
def downSweep (sorted : List Int) (lo : Nat) : Nat → List Int
  | 0 => []
  | Nat.succ h => if lo ≤ h then sorted.getD h 0 :: downSweep sorted lo h else []

/-- Embeds `Result schedule_scan(int sorted[], int start, Direction dir)`. -/
def schedule_scan (sorted : List Int) (start : Int) (dir : Direction) : Result :=
  let idx := find_index sorted start
  let seq :=
    match dir with
    | Direction.DIR_LEFT =>
        downSweep sorted 0 idx ++ [(0 : Int)] ++ upSweep sorted idx sorted.length
    | Direction.DIR_RIGHT =>
        upSweep sorted idx sorted.length ++ [NUM_CYLINDERS - 1] ++ downSweep sorted 0 idx
  { seq := seq, movement := compute_movement seq start }

/-- Embeds `Result schedule_cscan(int sorted[], int start, Direction dir)`. -/
def schedule_cscan (sorted : List Int) (start : Int) (dir : Direction) : Result :=
  let idx := find_index sorted start
  let seq :=
    match dir with
    | Direction.DIR_RIGHT =>
        upSweep sorted idx sorted.length ++ [NUM_CYLINDERS - 1, 0] ++ upSweep sorted 0 idx
    | Direction.DIR_LEFT =>
        downSweep sorted 0 idx ++ [(0 : Int), NUM_CYLINDERS - 1] ++ downSweep sorted idx sorted.length
  { seq := seq, movement := compute_movement seq start }

/-- Embeds `Result schedule_look(int sorted[], int start, Direction dir)`. -/
def schedule_look (sorted : List Int) (start : Int) (dir : Direction) : Result :=
  let idx := find_index sorted start
  let seq :=
    match dir with
    | Direction.DIR_LEFT =>
        downSweep sorted 0 idx ++ upSweep sorted idx sorted.length
    | Direction.DIR_RIGHT =>
        upSweep sorted idx sorted.length ++ downSweep sorted 0 idx
  { seq := seq, movement := compute_movement seq start }

/-- Embeds `Result schedule_clook(int sorted[], int start, Direction dir)`. -/
def schedule_clook (sorted : List Int) (start : Int) (dir : Direction) : Result :=
  let idx := find_index sorted start
  let seq :=
    match dir with
    | Direction.DIR_RIGHT =>
        upSweep sorted idx sorted.length ++ upSweep sorted 0 idx
    | Direction.DIR_LEFT =>
        downSweep sorted 0 idx ++ downSweep sorted idx sorted.length
  { seq := seq, movement := compute_movement seq start }

/-! ### Movement accumulator lemmas (claim C5) -/

theorem movementLoop_eq (seq : List Int) (head total : Int) :
    movementLoop seq head total = total + movementLoop seq head 0 := by
  induction seq generalizing head total with
  | nil => simp [movementLoop]
  | cons x rest ih =>
    simp only [movementLoop]
    rw [ih x (total + |x - head|), ih x (0 + |x - head|), zero_add, add_assoc]

theorem compute_movement_cons (x : Int) (rest : List Int) (start : Int) :
    compute_movement (x :: rest) start = |x - start| + compute_movement rest x := by
  simp only [compute_movement, movementLoop]
  rw [movementLoop_eq, zero_add]

theorem compute_movement_nil (start : Int) : compute_movement [] start = 0 := rfl

theorem compute_movement_nonneg (seq : List Int) (start : Int) :
    0 ≤ compute_movement seq start := by
  induction seq generalizing start with
  | nil => simp [compute_movement_nil]
  | cons x rest ih =>
    rw [compute_movement_cons]
    exact add_nonneg (abs_nonneg _) (ih x)

/-- C5: `compute_movement(seq, L, start)` equals
`Σ_{i < L} |seq[i] - head_before_i|` with `head_before_0 = start` and
`head_before_i = seq[i-1]` for `i > 0`; the empty sequence gives `0`, a
one-element sequence `[x]` gives `|x - start|`, and the result is never
negative. -/
theorem compute_movement_spec (seq : List Int) (start : Int) :
    compute_movement seq start =
      (∑ i ∈ Finset.range seq.length,
        |seq.getD i 0 - (if i = 0 then start else seq.getD (i - 1) 0)|) ∧
    compute_movement [] start = 0 ∧
    (∀ x : Int, compute_movement [x] start = |x - start|) ∧
    0 ≤ compute_movement seq start := by
  refine ⟨?_, compute_movement_nil start, ?_, compute_movement_nonneg seq start⟩
  · induction seq generalizing start with
    | nil => simp [compute_movement_nil]
    | cons x rest ih =>
      rw [compute_movement_cons, List.length_cons, Finset.sum_range_succ']
      simp only [List.getD_cons_succ, List.getD_cons_zero, Nat.add_sub_cancel,
        if_neg (Nat.succ_ne_zero _), reduceIte]
      rw [ih x, add_comm]
      congr 1
      apply Finset.sum_congr rfl
      intro i _
      congr 1
      cases i with
      | zero => simp
      | succ j => simp
  · intro x
    rw [compute_movement_cons, compute_movement_nil, add_zero]

/-! ### Split locator lemmas (claim C6) -/

theorem find_index_le_length (sorted : List Int) (start : Int) :
    find_index sorted start ≤ sorted.length := by
  induction sorted with
  | nil => simp [find_index]
  | cons x rest ih =>
    simp only [find_index, List.length_cons]
    split
    · exact Nat.zero_le _
    · exact Nat.succ_le_succ ih

theorem find_index_lt (sorted : List Int) (start : Int) :
    ∀ i, i < find_index sorted start → sorted.getD i 0 < start := by
  induction sorted with
  | nil => simp [find_index]
  | cons x rest ih =>
    intro i hi
    by_cases hx : start ≤ x
    · rw [find_index, if_pos hx] at hi
      exact absurd hi (Nat.not_lt_zero i)
    · rw [find_index, if_neg hx] at hi
      cases i with
      | zero =>
        rw [List.getD_cons_zero]
        exact lt_of_not_le hx
      | succ j =>
        rw [List.getD_cons_succ]
        exact ih j (Nat.lt_of_succ_lt_succ hi)

theorem find_index_hit (sorted : List Int) (start : Int)
    (h : find_index sorted start < sorted.length) :
    start ≤ sorted.getD (find_index sorted start) 0 := by
  induction sorted with
  | nil => simp [find_index] at h
  | cons x rest ih =>
    by_cases hx : start ≤ x
    · simp [find_index, hx]
    · simp only [find_index, if_neg hx, List.length_cons] at h
      simp only [find_index, if_neg hx, List.getD_cons_succ]
      exact ih (Nat.lt_of_succ_lt_succ h)

/-- C6: for an ascending-sorted list, `find_index` returns the smallest
index whose entry is `≥ start` (the length when none is), and this index
partitions the list: entries at indices below it are `< start`, entries at
or above it are `≥ start`. -/
theorem find_index_spec (sorted : List Int) (start : Int)
    (hsort : sorted.Sorted (· ≤ ·)) :
    find_index sorted start ≤ sorted.length ∧
    (∀ i, i < find_index sorted start → sorted.getD i 0 < start) ∧
    (∀ i, find_index sorted start ≤ i → i < sorted.length →
      start ≤ sorted.getD i 0) := by
  refine ⟨find_index_le_length sorted start, find_index_lt sorted start, ?_⟩
  intro i hge hlt
  have hidx : find_index sorted start < sorted.length := lt_of_le_of_lt hge hlt
  have h0 : start ≤ sorted.getD (find_index sorted start) 0 :=
    find_index_hit sorted start hidx
  rcases Nat.eq_or_lt_of_le hge with h | h
  · rwa [h] at h0
  · refine le_trans h0 ?_
    rw [List.getD_eq_getElem sorted 0 hidx, List.getD_eq_getElem sorted 0 hlt]
    exact List.pairwise_iff_getElem.mp hsort _ _ hidx hlt h

/-- Witness for C6 at `sorted = [1, 3, 5]`, `start = 2`. -/
theorem find_index_spec_witness :
    (([1, 3, 5] : List Int).Sorted (· ≤ ·)) ∧
    (find_index [1, 3, 5] 2 ≤ ([1, 3, 5] : List Int).length ∧
    (∀ i, i < find_index [1, 3, 5] 2 → ([1, 3, 5] : List Int).getD i 0 < 2) ∧
    (∀ i, find_index [1, 3, 5] 2 ≤ i → i < ([1, 3, 5] : List Int).length →
      2 ≤ ([1, 3, 5] : List Int).getD i 0)) :=
  ⟨by decide, find_index_spec [1, 3, 5] 2 (by decide)⟩

/-! ### Sweep segment characterizations -/

theorem upSweepAux_eq (sorted : List Int) :
    ∀ (fuel i : Nat), i + fuel ≤ sorted.length →
      upSweepAux sorted i fuel = (sorted.drop i).take fuel := by
  intro fuel
  induction fuel with
  | zero => intro i _; simp [upSweepAux]
  | succ n ih =>
    intro i h
    have hi : i < sorted.length :=
      Nat.lt_of_lt_of_le (Nat.lt_add_of_pos_right (Nat.succ_pos n)) h
    have hsh : i + 1 + n = i + (n + 1) := by
      rw [Nat.add_assoc, Nat.add_comm 1 n]
    rw [List.drop_eq_getElem_cons hi]
    simp only [upSweepAux, List.take_succ_cons]
    rw [List.getD_eq_getElem sorted 0 hi, ih (i + 1) (by rw [hsh]; exact h)]

theorem upSweep_drop (sorted : List Int) (i : Nat) (h : i ≤ sorted.length) :
    upSweep sorted i sorted.length = sorted.drop i := by
  rw [upSweep, upSweepAux_eq sorted _ i (le_of_eq (Nat.add_sub_cancel' h))]
  exact List.take_of_length_le (by simp)

theorem upSweep_take (sorted : List Int) (idx : Nat) (h : idx ≤ sorted.length) :
    upSweep sorted 0 idx = sorted.take idx := by
  rw [upSweep, upSweepAux_eq sorted _ 0 (by rw [Nat.zero_add]; exact h)]
  simp

theorem upSweepAux_snoc (sorted : List Int) :
    ∀ (fuel lo : Nat), upSweepAux sorted lo (fuel + 1) =
      upSweepAux sorted lo fuel ++ [sorted.getD (lo + fuel) 0] := by
  intro fuel
  induction fuel with
  | zero => intro lo; simp [upSweepAux]
  | succ f ih =>
    intro lo
    have hidx : lo + 1 + f = lo + (f + 1) := by
      rw [Nat.add_assoc, Nat.add_comm 1 f]
    calc upSweepAux sorted lo (f + 1 + 1)
        = sorted.getD lo 0 :: upSweepAux sorted (lo + 1) (f + 1) := rfl
      _ = sorted.getD lo 0 ::
            (upSweepAux sorted (lo + 1) f ++ [sorted.getD (lo + 1 + f) 0]) := by
          rw [ih (lo + 1)]
      _ = upSweepAux sorted lo (f + 1) ++ [sorted.getD (lo + (f + 1)) 0] := by
          rw [hidx]
          rfl

/-- The descending loop emits exactly the reverse of the ascending loop
over the same index range. -/
theorem downSweep_reverse (sorted : List Int) (lo : Nat) :
    ∀ hi, downSweep sorted lo hi = (upSweep sorted lo hi).reverse := by
  intro hi
  induction hi with
  | zero =>
    rw [upSweep, Nat.zero_sub]
    rfl
  | succ h ih =>
    by_cases hlo : lo ≤ h
    · have h1 : h + 1 - lo = (h - lo) + 1 := Nat.succ_sub hlo
      have h2 : lo + (h - lo) = h := Nat.add_sub_cancel' hlo
      have hstep : upSweep sorted lo (h + 1) =
          upSweep sorted lo h ++ [sorted.getD h 0] := by
        simp only [upSweep]
        rw [h1, upSweepAux_snoc sorted (h - lo) lo, h2]
      calc downSweep sorted lo (h + 1)
          = sorted.getD h 0 :: downSweep sorted lo h := by
            simp only [downSweep, if_pos hlo]
        _ = sorted.getD h 0 :: (upSweep sorted lo h).reverse := by rw [ih]
        _ = (upSweep sorted lo h ++ [sorted.getD h 0]).reverse := by
            rw [List.reverse_append]
            rfl
        _ = (upSweep sorted lo (h + 1)).reverse := by rw [hstep]
    · have h0 : h + 1 - lo = 0 :=
        Nat.sub_eq_zero_of_le (Nat.succ_le_of_lt (Nat.lt_of_not_le hlo))
      have hd : downSweep sorted lo (h + 1) = [] := by
        simp only [downSweep, if_neg hlo]
      rw [hd, upSweep, h0]
      rfl

theorem downSweep_take (sorted : List Int) (idx : Nat) (h : idx ≤ sorted.length) :
    downSweep sorted 0 idx = (sorted.take idx).reverse := by
  rw [downSweep_reverse sorted 0 idx, upSweep_take sorted idx h]

theorem downSweep_drop (sorted : List Int) (idx : Nat) (h : idx ≤ sorted.length) :
    downSweep sorted idx sorted.length = (sorted.drop idx).reverse := by
  rw [downSweep_reverse sorted idx sorted.length, upSweep_drop sorted idx h]

theorem take_sorted_le (sorted : List Int) (idx : Nat)
    (hsort : sorted.Sorted (· ≤ ·)) : (sorted.take idx).Sorted (· ≤ ·) :=
  List.Pairwise.sublist (List.take_sublist idx sorted) hsort

theorem drop_sorted_le (sorted : List Int) (idx : Nat)
    (hsort : sorted.Sorted (· ≤ ·)) : (sorted.drop idx).Sorted (· ≤ ·) :=
  List.Pairwise.sublist (List.drop_sublist idx sorted) hsort

theorem reverse_sorted_ge (l : List Int) (hsort : l.Sorted (· ≤ ·)) :
    l.reverse.Sorted (· ≥ ·) := by
  rw [List.Sorted, List.pairwise_reverse]
  exact hsort

/-- C3: with an ascending-sorted input and in-range start,
`schedule_scan` LEFT emits the below-split requests in descending order,
then the boundary cylinder `0` exactly once, then the at/above-split
requests ascending; RIGHT emits the at/above-split requests ascending,
then the boundary `cylinder_count - 1` exactly once, then the below-split
requests descending; an empty side leaves its segment empty but the
boundary entry is still present. -/
theorem scan_shape (sorted : List Int) (start : Int)
    (hsort : sorted.Sorted (· ≤ ·))
    (hst : 0 ≤ start ∧ start < NUM_CYLINDERS) :
    (schedule_scan sorted start Direction.DIR_LEFT).seq =
      (sorted.take (find_index sorted start)).reverse ++ [(0 : Int)] ++
        sorted.drop (find_index sorted start) ∧
    (schedule_scan sorted start Direction.DIR_RIGHT).seq =
      sorted.drop (find_index sorted start) ++ [NUM_CYLINDERS - 1] ++
        (sorted.take (find_index sorted start)).reverse ∧
    ((sorted.take (find_index sorted start)).reverse).Sorted (· ≥ ·) ∧
    (sorted.drop (find_index sorted start)).Sorted (· ≤ ·) := by
  have hle := find_index_le_length sorted start
  refine ⟨?_, ?_, ?_, ?_⟩
  · simp only [schedule_scan]
    rw [downSweep_take sorted _ hle, upSweep_drop sorted _ hle]
  · simp only [schedule_scan]
    rw [downSweep_take sorted _ hle, upSweep_drop sorted _ hle]
  · exact reverse_sorted_ge _ (take_sorted_le sorted _ hsort)
  · exact drop_sorted_le sorted _ hsort

/-- Witness for C3 at `sorted = [10, 20, 40]`, `start = 25`. -/
theorem scan_shape_witness :
    (([10, 20, 40] : List Int).Sorted (· ≤ ·) ∧
      ((0 : Int) ≤ 25 ∧ (25 : Int) < NUM_CYLINDERS)) ∧
    ((schedule_scan [10, 20, 40] 25 Direction.DIR_LEFT).seq =
      (([10, 20, 40] : List Int).take (find_index [10, 20, 40] 25)).reverse ++
        [(0 : Int)] ++ ([10, 20, 40] : List Int).drop (find_index [10, 20, 40] 25) ∧
    (schedule_scan [10, 20, 40] 25 Direction.DIR_RIGHT).seq =
      ([10, 20, 40] : List Int).drop (find_index [10, 20, 40] 25) ++
        [NUM_CYLINDERS - 1] ++
        (([10, 20, 40] : List Int).take (find_index [10, 20, 40] 25)).reverse ∧
    ((([10, 20, 40] : List Int).take (find_index [10, 20, 40] 25)).reverse).Sorted (· ≥ ·) ∧
    (([10, 20, 40] : List Int).drop (find_index [10, 20, 40] 25)).Sorted (· ≤ ·)) :=
  ⟨⟨by decide, by decide⟩, scan_shape [10, 20, 40] 25 (by decide) ⟨by decide, by decide⟩⟩

/-- C4: with an ascending-sorted input and in-range start,
`schedule_cscan` RIGHT emits the at/above-split requests ascending, then
boundary `cylinder_count - 1`, then boundary `0`, then the below-split
requests ascending (the wrapped segment keeps the sweep direction); LEFT
emits the below-split requests descending, then boundary `0`, then
boundary `cylinder_count - 1`, then the at/above-split requests
descending; each non-wrapped portion is monotonic in the sweep
direction. -/
theorem cscan_shape (sorted : List Int) (start : Int)
    (hsort : sorted.Sorted (· ≤ ·))
    (hst : 0 ≤ start ∧ start < NUM_CYLINDERS) :
    (schedule_cscan sorted start Direction.DIR_RIGHT).seq =
      sorted.drop (find_index sorted start) ++ [NUM_CYLINDERS - 1, 0] ++
        sorted.take (find_index sorted start) ∧
    (schedule_cscan sorted start Direction.DIR_LEFT).seq =
      (sorted.take (find_index sorted start)).reverse ++
        [(0 : Int), NUM_CYLINDERS - 1] ++
        (sorted.drop (find_index sorted start)).reverse ∧
    (sorted.drop (find_index sorted start)).Sorted (· ≤ ·) ∧
    (sorted.take (find_index sorted start)).Sorted (· ≤ ·) ∧
    ((sorted.take (find_index sorted start)).reverse).Sorted (· ≥ ·) ∧
    ((sorted.drop (find_index sorted start)).reverse).Sorted (· ≥ ·) := by
  have hle := find_index_le_length sorted start
  refine ⟨?_, ?_, ?_, ?_, ?_, ?_⟩
  · simp only [schedule_cscan]
    rw [upSweep_drop sorted _ hle, upSweep_take sorted _ hle]
  · simp only [schedule_cscan]
    rw [downSweep_take sorted _ hle, downSweep_drop sorted _ hle]
  · exact drop_sorted_le sorted _ hsort
  · exact take_sorted_le sorted _ hsort
  · exact reverse_sorted_ge _ (take_sorted_le sorted _ hsort)
  · exact reverse_sorted_ge _ (drop_sorted_le sorted _ hsort)

/-- Witness for C4 at `sorted = [5, 60, 200]`, `start = 50`. -/
theorem cscan_shape_witness :
    (([5, 60, 200] : List Int).Sorted (· ≤ ·) ∧
      ((0 : Int) ≤ 50 ∧ (50 : Int) < NUM_CYLINDERS)) ∧
    ((schedule_cscan [5, 60, 200] 50 Direction.DIR_RIGHT).seq =
      ([5, 60, 200] : List Int).drop (find_index [5, 60, 200] 50) ++
        [NUM_CYLINDERS - 1, 0] ++
        ([5, 60, 200] : List Int).take (find_index [5, 60, 200] 50) ∧
    (schedule_cscan [5, 60, 200] 50 Direction.DIR_LEFT).seq =
      (([5, 60, 200] : List Int).take (find_index [5, 60, 200] 50)).reverse ++
        [(0 : Int), NUM_CYLINDERS - 1] ++
        (([5, 60, 200] : List Int).drop (find_index [5, 60, 200] 50)).reverse ∧
    (([5, 60, 200] : List Int).drop (find_index [5, 60, 200] 50)).Sorted (· ≤ ·) ∧
    (([5, 60, 200] : List Int).take (find_index [5, 60, 200] 50)).Sorted (· ≤ ·) ∧
    ((([5, 60, 200] : List Int).take (find_index [5, 60, 200] 50)).reverse).Sorted (· ≥ ·) ∧
    ((([5, 60, 200] : List Int).drop (find_index [5, 60, 200] 50)).reverse).Sorted (· ≥ ·)) :=
  ⟨⟨by decide, by decide⟩, cscan_shape [5, 60, 200] 50 (by decide) ⟨by decide, by decide⟩⟩

/-! ### SCAN vs LOOK movement comparison (claim C7) -/

theorem compute_movement_append (A B : List Int) (s : Int) :
    compute_movement (A ++ B) s =
      compute_movement A s + compute_movement B (A.getLastD s) := by
  induction A generalizing s with
  | nil => simp [compute_movement_nil]
  | cons x A' ih =>
    rw [List.cons_append, compute_movement_cons, ih x, compute_movement_cons,
      List.getLastD_cons, add_assoc]

theorem compute_movement_cons_ge (B : List Int) (h x : Int) :
    compute_movement B h ≤ |x - h| + compute_movement B x := by
  cases B with
  | nil => simpa [compute_movement_nil] using abs_nonneg (x - h)
  | cons b B' =>
    rw [compute_movement_cons, compute_movement_cons]
    have htri : |b - h| ≤ |b - x| + |x - h| := abs_sub_le b x h
    calc |b - h| + compute_movement B' b
        ≤ (|b - x| + |x - h|) + compute_movement B' b := add_le_add_right htri _
      _ = |x - h| + (|b - x| + compute_movement B' b) := by
          rw [add_comm (|b - x|) (|x - h|), add_assoc]

/-- Inserting one extra stop anywhere in a service sequence never
decreases the total head movement. -/
theorem insert_movement_ge (A B : List Int) (x s : Int) :
    compute_movement (A ++ B) s ≤ compute_movement (A ++ x :: B) s := by
  rw [compute_movement_append, compute_movement_append, compute_movement_cons]
  exact add_le_add_left (compute_movement_cons_ge B (A.getLastD s) x) _

/-- C7 (amended): for every input and either direction, LOOK's total
movement is at most SCAN's total movement — SCAN's sequence is LOOK's
sequence with the boundary stop inserted, and an extra stop never
decreases movement.  The original claim's strictness clause fails (see
the counterexample). -/
theorem look_le_scan (sorted : List Int) (start : Int) (dir : Direction) :
    (schedule_look sorted start dir).movement ≤
      (schedule_scan sorted start dir).movement := by
  cases dir with
  | DIR_LEFT =>
    simpa [schedule_look, schedule_scan] using
      insert_movement_ge (downSweep sorted 0 (find_index sorted start))
        (upSweep sorted (find_index sorted start) sorted.length) 0 start
  | DIR_RIGHT =>
    simpa [schedule_look, schedule_scan] using
      insert_movement_ge (upSweep sorted (find_index sorted start) sorted.length)
        (downSweep sorted 0 (find_index sorted start)) (NUM_CYLINDERS - 1) start

/-- When every request lies strictly below the reference, the split index
is the full length. -/
theorem find_index_all_below (sorted : List Int) (start : Int)
    (h : ∀ x ∈ sorted, x < start) : find_index sorted start = sorted.length := by
  induction sorted with
  | nil => rfl
  | cons y rest ih =>
    rw [find_index, if_neg (not_le.mpr (h y (List.mem_cons_self y rest))),
      List.length_cons, ih (fun x hx => h x (List.mem_cons_of_mem y hx))]

/-- Counterexample to C7's strictness clause: with 20 requests all at
cylinder 0 and start 299, LOOK's and SCAN's movements are equal in both
directions, the RIGHT boundary 299 is not a requested cylinder, and the
requests do not span both disk edges. -/
theorem look_scan_strict_counterexample :
    (schedule_look (List.replicate 20 (0 : Int)) 299 Direction.DIR_RIGHT).movement =
      (schedule_scan (List.replicate 20 (0 : Int)) 299 Direction.DIR_RIGHT).movement ∧
    (schedule_look (List.replicate 20 (0 : Int)) 299 Direction.DIR_LEFT).movement =
      (schedule_scan (List.replicate 20 (0 : Int)) 299 Direction.DIR_LEFT).movement ∧
    (NUM_CYLINDERS - 1) ∉ List.replicate 20 (0 : Int) ∧
    ¬ ((0 : Int) ∈ List.replicate 20 (0 : Int) ∧
        (NUM_CYLINDERS - 1) ∈ List.replicate 20 (0 : Int)) := by
  have hlen20 : (List.replicate 20 (0 : Int)).length = 20 := List.length_replicate 20 0
  have hidx : find_index (List.replicate 20 (0 : Int)) 299 = 20 := by
    have hall := find_index_all_below (List.replicate 20 (0 : Int)) 299
      (fun x hx => by rw [List.eq_of_mem_replicate hx]; decide)
    rw [hlen20] at hall
    exact hall
  have hup : upSweep (List.replicate 20 (0 : Int)) 20
      (List.replicate 20 (0 : Int)).length = [] := by
    rw [hlen20, upSweep, Nat.sub_self]
    rfl
  have hD : downSweep (List.replicate 20 (0 : Int)) 0 20 =
      List.replicate 20 (0 : Int) := by
    rw [downSweep_take _ 20 (le_of_eq hlen20.symm), List.take_replicate,
      show min 20 20 = 20 from rfl, List.reverse_replicate]
  have hlast : (downSweep (List.replicate 20 (0 : Int)) 0 20).getLastD 299 = 0 := by
    rw [hD]
    decide
  have hb : NUM_CYLINDERS - 1 = (299 : Int) := by decide
  have hmem : (NUM_CYLINDERS - 1) ∉ List.replicate 20 (0 : Int) := by
    rw [hb, List.mem_replicate]
    simp
  refine ⟨?_, ?_, hmem, fun hc => hmem hc.2⟩
  · simp only [schedule_look, schedule_scan, hidx, hup, List.nil_append,
      List.singleton_append]
    rw [compute_movement_cons, hb,
      show |(299 : Int) - 299| = 0 from by decide, zero_add]
  · simp only [schedule_look, schedule_scan, hidx, hup, List.append_nil]
    rw [compute_movement_append, compute_movement_cons, compute_movement_nil, hlast,
      show |(0 : Int) - 0| = 0 from by decide, add_zero, add_zero]

/-! ### SSTF candidate-scan invariant (claims C2, C10, and C1 for SSTF) -/

theorem scanLoop_cons_visited (req : List Int) (visited : List Bool) (head : Int)
    (i : Nat) (rest : List Nat) (bd bi : Int) (h : visited.getD i true = true) :
    scanLoop req visited head (i :: rest) (bd, bi) =
      scanLoop req visited head rest (bd, bi) := by
  simp only [scanLoop, h, if_true]

theorem scanLoop_cons_better (req : List Int) (visited : List Bool) (head : Int)
    (i : Nat) (rest : List Nat) (bd bi : Int) (h : visited.getD i true = false)
    (hd : |req.getD i 0 - head| < bd) :
    scanLoop req visited head (i :: rest) (bd, bi) =
      scanLoop req visited head rest (|req.getD i 0 - head|, (i : Int)) := by
  simp only [scanLoop, h]
  rw [if_neg (by simp), if_pos hd]

theorem scanLoop_cons_worse (req : List Int) (visited : List Bool) (head : Int)
    (i : Nat) (rest : List Nat) (bd bi : Int) (h : visited.getD i true = false)
    (hd : ¬ |req.getD i 0 - head| < bd) :
    scanLoop req visited head (i :: rest) (bd, bi) =
      scanLoop req visited head rest (bd, bi) := by
  simp only [scanLoop, h]
  rw [if_neg (by simp), if_neg hd]

/-- Behaviour of the inner candidate scan on an arbitrary index list: the
accumulator either survives untouched (every unvisited candidate is at
least as far as `bd`), or the final best is some unvisited index `k`
whose distance is strictly below every unvisited candidate before it and
at most every unvisited candidate after it. -/
theorem scanLoop_spec (req : List Int) (visited : List Bool) (head : Int) :
    ∀ (is : List Nat) (bd bi : Int),
      (scanLoop req visited head is (bd, bi) = (bd, bi) ∧
        ∀ j ∈ is, visited.getD j true = false → bd ≤ |req.getD j 0 - head|) ∨
      (∃ is₁ k is₂, is = is₁ ++ k :: is₂ ∧ visited.getD k true = false ∧
        scanLoop req visited head is (bd, bi) = (|req.getD k 0 - head|, (k : Int)) ∧
        |req.getD k 0 - head| < bd ∧
        (∀ j ∈ is₁, visited.getD j true = false →
          |req.getD k 0 - head| < |req.getD j 0 - head|) ∧
        (∀ j ∈ is₂, visited.getD j true = false →
          |req.getD k 0 - head| ≤ |req.getD j 0 - head|)) := by
  intro is
  induction is with
  | nil => intro bd bi; left; exact ⟨rfl, by simp⟩
  | cons i rest ih =>
    intro bd bi
    by_cases hv : visited.getD i true = true
    · have hred := scanLoop_cons_visited req visited head i rest bd bi hv
      rcases ih bd bi with ⟨heq, hall⟩ | ⟨is₁, k, is₂, hsplit, hk, heq, hlt, h₁, h₂⟩
      · left
        refine ⟨hred.trans heq, ?_⟩
        intro j hj hju
        rcases List.mem_cons.mp hj with rfl | hj'
        · exact absurd hv (by rw [hju]; simp)
        · exact hall j hj' hju
      · right
        refine ⟨i :: is₁, k, is₂, by rw [hsplit, List.cons_append], hk,
          hred.trans heq, hlt, ?_, h₂⟩
        intro j hj hju
        rcases List.mem_cons.mp hj with rfl | hj'
        · exact absurd hv (by rw [hju]; simp)
        · exact h₁ j hj' hju
    · have hv' : visited.getD i true = false := by
        revert hv; cases visited.getD i true <;> simp
      by_cases hd : |req.getD i 0 - head| < bd
      · have hred := scanLoop_cons_better req visited head i rest bd bi hv' hd
        rcases ih (|req.getD i 0 - head|) (i : Int) with
          ⟨heq, hall⟩ | ⟨is₁, k, is₂, hsplit, hk, heq, hlt, h₁, h₂⟩
        · right
          exact ⟨[], i, rest, by simp, hv', hred.trans heq, hd, by simp, hall⟩
        · right
          refine ⟨i :: is₁, k, is₂, by rw [hsplit, List.cons_append], hk,
            hred.trans heq, lt_trans hlt hd, ?_, h₂⟩
          intro j hj hju
          rcases List.mem_cons.mp hj with rfl | hj'
          · exact hlt
          · exact h₁ j hj' hju
      · have hred := scanLoop_cons_worse req visited head i rest bd bi hv' hd
        rcases ih bd bi with ⟨heq, hall⟩ | ⟨is₁, k, is₂, hsplit, hk, heq, hlt, h₁, h₂⟩
        · left
          refine ⟨hred.trans heq, ?_⟩
          intro j hj hju
          rcases List.mem_cons.mp hj with rfl | hj'
          · exact not_lt.mp hd
          · exact hall j hj' hju
        · right
          refine ⟨i :: is₁, k, is₂, by rw [hsplit, List.cons_append], hk,
            hred.trans heq, hlt, ?_, h₂⟩
          intro j hj hju
          rcases List.mem_cons.mp hj with rfl | hj'
          · exact lt_of_lt_of_le hlt (not_lt.mp hd)
          · exact h₁ j hj' hju

/-- Under the range precondition every candidate distance is below the
`1e9` sentinel. -/
theorem dist_lt_sentinel (req : List Int) (head : Int)
    (hreq : ∀ x ∈ req, 0 ≤ x ∧ x < NUM_CYLINDERS)
    (hhead : 0 ≤ head ∧ head < NUM_CYLINDERS) :
    ∀ j, j < req.length → |req.getD j 0 - head| < 1000000000 := by
  intro j hj
  have hmem : req.getD j 0 ∈ req := by
    rw [List.getD_eq_getElem req 0 hj]
    exact List.getElem_mem hj
  obtain ⟨h1, h2⟩ := hreq _ hmem
  simp only [NUM_CYLINDERS] at h2 hhead
  rw [abs_lt]
  constructor
  · have hh : head < 1000000000 := lt_trans hhead.2 (by decide)
    have h4 : -head ≤ req.getD j 0 - head := by
      have h5 := sub_le_sub_right h1 head
      rwa [zero_sub] at h5
    exact lt_of_lt_of_le (neg_lt_neg hh) h4
  · exact lt_of_le_of_lt (sub_le_self _ hhead.1) (lt_trans h2 (by decide))

/-- Full characterization of one inner scan of `schedule_sstf`, provided
some index is still unvisited and all distances are below the sentinel:
the returned `bestIdx` is an unvisited in-bounds index of minimal
distance, and among equidistant unvisited indices it is the smallest. -/
theorem sstfScan_spec (req : List Int) (visited : List Bool) (head : Int)
    (hex : ∃ j, j < req.length ∧ visited.getD j true = false)
    (hd : ∀ j, j < req.length → |req.getD j 0 - head| < 1000000000) :
    ∃ k : Nat, k < req.length ∧
      sstfScan req visited head = (|req.getD k 0 - head|, (k : Int)) ∧
      visited.getD k true = false ∧
      (∀ j, j < req.length → visited.getD j true = false →
        |req.getD k 0 - head| ≤ |req.getD j 0 - head|) ∧
      (∀ j, j < req.length → visited.getD j true = false →
        |req.getD j 0 - head| = |req.getD k 0 - head| → k ≤ j) := by
  obtain ⟨j₀, hj₀, hju₀⟩ := hex
  rcases scanLoop_spec req visited head (List.range req.length) 1000000000 (-1) with
    ⟨_, hall⟩ | ⟨is₁, k, is₂, hsplit, hk, heq, _, h₁, h₂⟩
  · exfalso
    have h1 := hall j₀ (List.mem_range.mpr hj₀) hju₀
    have h2 := hd j₀ hj₀
    exact absurd h2 (not_lt.mpr h1)
  · have hkmem : k ∈ List.range req.length := by
      rw [hsplit]
      exact List.mem_append.mpr (Or.inr (List.mem_cons_self k is₂))
    refine ⟨k, List.mem_range.mp hkmem, heq, hk, ?_, ?_⟩
    · intro j hj hju
      have hjm : j ∈ List.range req.length := List.mem_range.mpr hj
      rw [hsplit] at hjm
      rcases List.mem_append.mp hjm with hj1 | hj2
      · exact le_of_lt (h₁ j hj1 hju)
      · rcases List.mem_cons.mp hj2 with rfl | hj2'
        · exact le_refl _
        · exact h₂ j hj2' hju
    · intro j hj hju heqd
      have hjm : j ∈ List.range req.length := List.mem_range.mpr hj
      rw [hsplit] at hjm
      rcases List.mem_append.mp hjm with hj1 | hj2
      · exact absurd heqd (ne_of_gt (h₁ j hj1 hju))
      · rcases List.mem_cons.mp hj2 with rfl | hj2'
        · exact le_refl _
        · have hpair : (List.range req.length).Pairwise (· < ·) :=
            List.sorted_lt_range req.length
          rw [hsplit] at hpair
          have hks := (List.pairwise_append.mp hpair).2.1
          exact le_of_lt ((List.pairwise_cons.mp hks).1 j hj2')

/-- Unfolding of one outer SSTF iteration once the inner scan's result is
known. -/
theorem sstfLoop_succ_eq (req : List Int) (n : Nat) (visited : List Bool)
    (head d : Int) (k : Nat)
    (h : sstfScan req visited head = (d, (k : Int))) :
    sstfLoop req (n + 1) visited head =
      req.getD k 0 :: sstfLoop req n (visited.set k true) (req.getD k 0) := by
  have ht : (sstfScan req visited head).2.toNat = k := by
    rw [h]
    exact Int.toNat_natCast k
  show (let bestIdx := (sstfScan req visited head).2.toNat
    req.getD bestIdx 0 ::
      sstfLoop req n (visited.set bestIdx true) (req.getD bestIdx 0)) = _
  rw [ht]

theorem sstfLoop_length (req : List Int) :
    ∀ (n : Nat) (visited : List Bool) (head : Int),
      (sstfLoop req n visited head).length = n := by
  intro n
  induction n with
  | zero => intro _ _; rfl
  | succ m ih => intro visited head; simp [sstfLoop, ih]

/-- C2: under the range precondition, each inner scan of `schedule_sstf`
selects an unvisited request of minimal absolute distance from the
current head, choosing the smallest original index among equidistant
unvisited candidates, and the outer loop emits that request and moves the
head to it. -/
theorem sstf_greedy (req : List Int) (visited : List Bool) (head : Int) (n : Nat)
    (hreq : ∀ x ∈ req, 0 ≤ x ∧ x < NUM_CYLINDERS)
    (hhead : 0 ≤ head ∧ head < NUM_CYLINDERS)
    (hex : ∃ j, j < req.length ∧ visited.getD j true = false) :
    ((sstfScan req visited head).2.toNat < req.length ∧
      visited.getD (sstfScan req visited head).2.toNat true = false ∧
      (∀ j, j < req.length → visited.getD j true = false →
        |req.getD (sstfScan req visited head).2.toNat 0 - head| ≤
          |req.getD j 0 - head|) ∧
      (∀ j, j < req.length → visited.getD j true = false →
        |req.getD j 0 - head| = |req.getD (sstfScan req visited head).2.toNat 0 - head| →
        (sstfScan req visited head).2.toNat ≤ j)) ∧
    sstfLoop req (n + 1) visited head =
      req.getD (sstfScan req visited head).2.toNat 0 ::
        sstfLoop req n (visited.set (sstfScan req visited head).2.toNat true)
          (req.getD (sstfScan req visited head).2.toNat 0) := by
  obtain ⟨k, hklt, heq, hk, hmin, htie⟩ :=
    sstfScan_spec req visited head hex (dist_lt_sentinel req head hreq hhead)
  have htn : (sstfScan req visited head).2.toNat = k := by
    rw [heq]
    exact Int.toNat_natCast k
  refine ⟨?_, rfl⟩
  rw [htn]
  exact ⟨hklt, hk, hmin, htie⟩

/-- Witness for C2 at `req = [10, 4, 16]`, nothing visited, `head = 13`:
indices 0 and 2 are equidistant (distance 3) and index 0 is selected. -/
theorem sstf_greedy_witness :
    ((∀ x ∈ ([10, 4, 16] : List Int), 0 ≤ x ∧ x < NUM_CYLINDERS) ∧
      ((0 : Int) ≤ 13 ∧ (13 : Int) < NUM_CYLINDERS) ∧
      (∃ j, j < ([10, 4, 16] : List Int).length ∧
        ([false, false, false] : List Bool).getD j true = false)) ∧
    (((sstfScan [10, 4, 16] [false, false, false] 13).2.toNat <
        ([10, 4, 16] : List Int).length ∧
      ([false, false, false] : List Bool).getD
        (sstfScan [10, 4, 16] [false, false, false] 13).2.toNat true = false ∧
      (∀ j, j < ([10, 4, 16] : List Int).length →
        ([false, false, false] : List Bool).getD j true = false →
        |([10, 4, 16] : List Int).getD
            (sstfScan [10, 4, 16] [false, false, false] 13).2.toNat 0 - 13| ≤
          |([10, 4, 16] : List Int).getD j 0 - 13|) ∧
      (∀ j, j < ([10, 4, 16] : List Int).length →
        ([false, false, false] : List Bool).getD j true = false →
        |([10, 4, 16] : List Int).getD j 0 - 13| =
          |([10, 4, 16] : List Int).getD
            (sstfScan [10, 4, 16] [false, false, false] 13).2.toNat 0 - 13| →
        (sstfScan [10, 4, 16] [false, false, false] 13).2.toNat ≤ j)) ∧
    sstfLoop [10, 4, 16] (2 + 1) [false, false, false] 13 =
      ([10, 4, 16] : List Int).getD
          (sstfScan [10, 4, 16] [false, false, false] 13).2.toNat 0 ::
        sstfLoop [10, 4, 16] 2
          (([false, false, false] : List Bool).set
            (sstfScan [10, 4, 16] [false, false, false] 13).2.toNat true)
          (([10, 4, 16] : List Int).getD
            (sstfScan [10, 4, 16] [false, false, false] 13).2.toNat 0)) :=
  ⟨⟨by decide, ⟨by decide, by decide⟩, ⟨0, by decide⟩⟩,
    sstf_greedy [10, 4, 16] [false, false, false] 13 2
      (by decide) ⟨by decide, by decide⟩ ⟨0, by decide⟩⟩

/-- C10: under the range precondition, whenever an unvisited index
remains, the inner scan of `schedule_sstf` finds one: `bestIdx` is never
`-1`, it is a valid unvisited index below the request count (so the
`visited[bestIdx]` write is in bounds), `bestDist` stays below the `1e9`
sentinel, and the emitted sequence has exactly one entry per request (so
every `r.seq[count++]` write lands below the request count, which is
within the 50-slot buffer). -/
theorem sstf_scan_safe (req : List Int) (visited : List Bool) (head : Int)
    (hreq : ∀ x ∈ req, 0 ≤ x ∧ x < NUM_CYLINDERS)
    (hhead : 0 ≤ head ∧ head < NUM_CYLINDERS)
    (hex : ∃ j, j < req.length ∧ visited.getD j true = false) :
    (sstfScan req visited head).2 ≠ -1 ∧
    0 ≤ (sstfScan req visited head).2 ∧
    (sstfScan req visited head).2.toNat < req.length ∧
    visited.getD (sstfScan req visited head).2.toNat true = false ∧
    (sstfScan req visited head).1 < 1000000000 ∧
    ∀ start : Int, (schedule_sstf req start).seq.length = req.length := by
  obtain ⟨k, hklt, heq, hk, _, _⟩ :=
    sstfScan_spec req visited head hex (dist_lt_sentinel req head hreq hhead)
  have htn : (sstfScan req visited head).2.toNat = k := by
    rw [heq]
    exact Int.toNat_natCast k
  refine ⟨?_, ?_, ?_, ?_, ?_, ?_⟩
  · rw [heq]; simp
  · rw [heq]; simp
  · rw [htn]; exact hklt
  · rw [htn]; exact hk
  · rw [heq]
    exact dist_lt_sentinel req head hreq hhead k hklt
  · intro start
    simp [schedule_sstf, sstfLoop_length]

/-- Witness for C10 at `req = [100, 200]`, `visited = [true, false]`,
`head = 150`. -/
theorem sstf_scan_safe_witness :
    ((∀ x ∈ ([100, 200] : List Int), 0 ≤ x ∧ x < NUM_CYLINDERS) ∧
      ((0 : Int) ≤ 150 ∧ (150 : Int) < NUM_CYLINDERS) ∧
      (∃ j, j < ([100, 200] : List Int).length ∧
        ([true, false] : List Bool).getD j true = false)) ∧
    ((sstfScan [100, 200] [true, false] 150).2 ≠ -1 ∧
      0 ≤ (sstfScan [100, 200] [true, false] 150).2 ∧
      (sstfScan [100, 200] [true, false] 150).2.toNat <
        ([100, 200] : List Int).length ∧
      ([true, false] : List Bool).getD
        (sstfScan [100, 200] [true, false] 150).2.toNat true = false ∧
      (sstfScan [100, 200] [true, false] 150).1 < 1000000000 ∧
      ∀ start : Int, (schedule_sstf [100, 200] start).seq.length =
        ([100, 200] : List Int).length) :=
  ⟨⟨by decide, ⟨by decide, by decide⟩, ⟨1, by decide⟩⟩,
    sstf_scan_safe [100, 200] [true, false] 150
      (by decide) ⟨by decide, by decide⟩ ⟨1, by decide⟩⟩

/-! ### SSTF services each request exactly once -/

/-- The values at unvisited indices, in index order. -/
def uv : List Int → List Bool → List Int
  | [], _ => []
  | _ :: _, [] => []
  | x :: xs, b :: bs => if b then uv xs bs else x :: uv xs bs

/-- The number of unvisited indices. -/
def countFalse : List Bool → Nat
  | [] => 0
  | b :: bs => (if b then 0 else 1) + countFalse bs

theorem uv_replicate (req : List Int) :
    uv req (List.replicate req.length false) = req := by
  induction req with
  | nil => rfl
  | cons x xs ih => simp [uv, List.replicate_succ, ih]

theorem countFalse_replicate (n : Nat) :
    countFalse (List.replicate n false) = n := by
  induction n with
  | zero => rfl
  | succ m ih => simp [countFalse, List.replicate_succ, ih, Nat.add_comm]

theorem uv_nil_of_countFalse_zero :
    ∀ (req : List Int) (visited : List Bool), countFalse visited = 0 →
      uv req visited = [] := by
  intro req
  induction req with
  | nil => intro _ _; rfl
  | cons x xs ih =>
    intro visited h0
    cases visited with
    | nil => rfl
    | cons b bs =>
      cases b with
      | false => simp [countFalse] at h0
      | true =>
        simp only [countFalse, if_true, Nat.zero_add] at h0
        simpa [uv] using ih bs h0

theorem countFalse_set :
    ∀ (visited : List Bool) (k : Nat), k < visited.length →
      visited.getD k true = false →
      countFalse visited = countFalse (visited.set k true) + 1 := by
  intro visited
  induction visited with
  | nil => intro k hk; simp at hk
  | cons b bs ih =>
    intro k hk hv
    cases k with
    | zero =>
      simp only [List.getD_cons_zero] at hv
      subst hv
      rw [List.set_cons_zero]
      show 1 + countFalse bs = (0 + countFalse bs) + 1
      rw [Nat.zero_add, Nat.add_comm]
    | succ j =>
      simp only [List.getD_cons_succ] at hv
      simp only [List.length_cons] at hk
      have hcf := ih j (Nat.lt_of_succ_lt_succ hk) hv
      simp only [List.set_cons_succ, countFalse]
      rw [hcf, Nat.add_assoc]

theorem exists_unvis_of_countFalse_pos :
    ∀ (visited : List Bool), 0 < countFalse visited →
      ∃ j, j < visited.length ∧ visited.getD j true = false := by
  intro visited
  induction visited with
  | nil => intro h; simp [countFalse] at h
  | cons b bs ih =>
    intro h
    cases b with
    | false => exact ⟨0, by simp, by simp⟩
    | true =>
      simp only [countFalse, if_true, Nat.zero_add] at h
      obtain ⟨j, hj, hju⟩ := ih h
      refine ⟨j + 1, ?_, ?_⟩
      · rw [List.length_cons]
        exact Nat.succ_lt_succ hj
      · rw [List.getD_cons_succ]
        exact hju

theorem uv_set_perm :
    ∀ (req : List Int) (visited : List Bool) (k : Nat),
      visited.length = req.length → k < visited.length →
      visited.getD k true = false →
      (uv req visited).Perm (req.getD k 0 :: uv req (visited.set k true)) := by
  intro req
  induction req with
  | nil => intro visited k hlen hk; simp [hlen] at hk
  | cons x xs ih =>
    intro visited k hlen hk hv
    cases visited with
    | nil => simp at hlen
    | cons b bs =>
      cases k with
      | zero =>
        simp only [List.getD_cons_zero] at hv
        subst hv
        simp [uv, List.set]
      | succ j =>
        simp only [List.getD_cons_succ] at hv
        have hlen' : bs.length = xs.length := by simpa using hlen
        have hj : j < bs.length := by simpa using hk
        have hrec := ih bs j hlen' hj hv
        cases b with
        | true => simpa [uv, List.set] using hrec
        | false =>
          simp only [uv, List.set, if_false, List.getD_cons_succ]
          exact (hrec.cons x).trans (List.Perm.swap _ _ _)

theorem sstfLoop_perm (req : List Int)
    (hreq : ∀ x ∈ req, 0 ≤ x ∧ x < NUM_CYLINDERS) :
    ∀ (n : Nat) (visited : List Bool) (head : Int),
      visited.length = req.length → countFalse visited = n →
      0 ≤ head → head < NUM_CYLINDERS →
      (sstfLoop req n visited head).Perm (uv req visited) := by
  intro n
  induction n with
  | zero =>
    intro visited head hlen hcnt _ _
    rw [uv_nil_of_countFalse_zero req visited hcnt]
    exact List.Perm.refl []
  | succ m ih =>
    intro visited head hlen hcnt hh0 hh1
    have hpos : 0 < countFalse visited := by
      rw [hcnt]
      exact Nat.succ_pos m
    obtain ⟨j₀, hj₀, hju₀⟩ := exists_unvis_of_countFalse_pos visited hpos
    have hex : ∃ j, j < req.length ∧ visited.getD j true = false :=
      ⟨j₀, by rw [hlen] at hj₀; exact hj₀, hju₀⟩
    obtain ⟨k, hklt, heq, hk, _, _⟩ :=
      sstfScan_spec req visited head hex
        (dist_lt_sentinel req head hreq ⟨hh0, hh1⟩)
    have htn : (sstfScan req visited head).2.toNat = k := by
      rw [heq]
      exact Int.toNat_natCast k
    have hmem : req.getD k 0 ∈ req := by
      rw [List.getD_eq_getElem req 0 hklt]
      exact List.getElem_mem hklt
    obtain ⟨hx0, hx1⟩ := hreq _ hmem
    have hkv : k < visited.length := by
      rw [hlen]
      exact hklt
    have hset : countFalse (visited.set k true) = m := by
      have hcs := countFalse_set visited k hkv hk
      rw [hcnt] at hcs
      exact (Nat.succ_injective hcs).symm
    have hrec := ih (visited.set k true) (req.getD k 0)
      (by rw [List.length_set]; exact hlen) hset hx0 hx1
    have hstep : sstfLoop req (m + 1) visited head =
        req.getD k 0 :: sstfLoop req m (visited.set k true) (req.getD k 0) := by
      show (let bestIdx := (sstfScan req visited head).2.toNat
        req.getD bestIdx 0 ::
          sstfLoop req m (visited.set bestIdx true) (req.getD bestIdx 0)) = _
      rw [htn]
    rw [hstep]
    exact (hrec.cons (req.getD k 0)).trans
      (uv_set_perm req visited k hlen hkv hk).symm

/-- The function `schedule_sstf` emits a permutation of its input requests. -/
theorem sstf_perm (req : List Int) (start : Int)
    (hreq : ∀ x ∈ req, 0 ≤ x ∧ x < NUM_CYLINDERS)
    (hstart : 0 ≤ start ∧ start < NUM_CYLINDERS) :
    (schedule_sstf req start).seq.Perm req := by
  have h := sstfLoop_perm req hreq req.length
    (List.replicate req.length false) start
    (by simp) (countFalse_replicate req.length) hstart.1 hstart.2
  rw [uv_replicate req] at h
  exact h

/-! ### Every algorithm services the request set exactly once (claim C1) -/

/-- The single synthetic boundary entry emitted by `schedule_scan`. -/
def boundaryCyl : Direction → Int
  | Direction.DIR_LEFT => 0
  | Direction.DIR_RIGHT => NUM_CYLINDERS - 1

/-- The two consecutive synthetic boundary entries emitted by
`schedule_cscan`: the far one, then the near one. -/
def wrapCyls : Direction → List Int
  | Direction.DIR_LEFT => [0, NUM_CYLINDERS - 1]
  | Direction.DIR_RIGHT => [NUM_CYLINDERS - 1, 0]

/-- C1: for every valid input, each of the six schedulers services the
request set exactly once: FCFS, SSTF, LOOK and C-LOOK emit exactly a
permutation of the requests, while SCAN and C-SCAN emit a permutation of
the requests with their synthetic boundary entries (cylinder `0` or
`cylinder_count - 1`) inserted in between. -/
theorem six_algorithms_perm (req sorted : List Int) (start : Int)
    (hperm : sorted.Perm req)
    (hreq : ∀ x ∈ req, 0 ≤ x ∧ x < NUM_CYLINDERS)
    (hstart : 0 ≤ start ∧ start < NUM_CYLINDERS) :
    (schedule_fcfs req start).seq.Perm req ∧
    (schedule_sstf req start).seq.Perm req ∧
    (∀ dir, ∃ pre post, (schedule_scan sorted start dir).seq =
      pre ++ [boundaryCyl dir] ++ post ∧ (pre ++ post).Perm req) ∧
    (∀ dir, ∃ pre post, (schedule_cscan sorted start dir).seq =
      pre ++ wrapCyls dir ++ post ∧ (pre ++ post).Perm req) ∧
    (∀ dir, (schedule_look sorted start dir).seq.Perm req) ∧
    (∀ dir, (schedule_clook sorted start dir).seq.Perm req) := by
  have hle := find_index_le_length sorted start
  have hdown := downSweep_take sorted (find_index sorted start) hle
  have hup := upSweep_drop sorted (find_index sorted start) hle
  have hup0 := upSweep_take sorted (find_index sorted start) hle
  have hdown2 := downSweep_drop sorted (find_index sorted start) hle
  have hbase : ((sorted.take (find_index sorted start)).reverse ++
      sorted.drop (find_index sorted start)).Perm req := by
    refine List.Perm.trans (List.Perm.append (List.reverse_perm _) (List.Perm.refl _)) ?_
    rw [List.take_append_drop]
    exact hperm
  have hbase2 : (sorted.drop (find_index sorted start) ++
      (sorted.take (find_index sorted start)).reverse).Perm req :=
    List.perm_append_comm.trans hbase
  have hbase3 : (sorted.drop (find_index sorted start) ++
      sorted.take (find_index sorted start)).Perm req := by
    refine List.perm_append_comm.trans ?_
    rw [List.take_append_drop]
    exact hperm
  have hbase4 : ((sorted.take (find_index sorted start)).reverse ++
      (sorted.drop (find_index sorted start)).reverse).Perm req := by
    refine List.Perm.trans
      (List.Perm.append (List.reverse_perm _) (List.reverse_perm _)) ?_
    rw [List.take_append_drop]
    exact hperm
  refine ⟨List.Perm.refl req, sstf_perm req start hreq hstart, ?_, ?_, ?_, ?_⟩
  · intro dir
    cases dir with
    | DIR_LEFT =>
      refine ⟨downSweep sorted 0 (find_index sorted start),
        upSweep sorted (find_index sorted start) sorted.length, rfl, ?_⟩
      rw [hdown, hup]
      exact hbase
    | DIR_RIGHT =>
      refine ⟨upSweep sorted (find_index sorted start) sorted.length,
        downSweep sorted 0 (find_index sorted start), rfl, ?_⟩
      rw [hdown, hup]
      exact hbase2
  · intro dir
    cases dir with
    | DIR_LEFT =>
      refine ⟨downSweep sorted 0 (find_index sorted start),
        downSweep sorted (find_index sorted start) sorted.length, rfl, ?_⟩
      rw [hdown, hdown2]
      exact hbase4
    | DIR_RIGHT =>
      refine ⟨upSweep sorted (find_index sorted start) sorted.length,
        upSweep sorted 0 (find_index sorted start), rfl, ?_⟩
      rw [hup, hup0]
      exact hbase3
  · intro dir
    cases dir with
    | DIR_LEFT =>
      show (downSweep sorted 0 (find_index sorted start) ++
        upSweep sorted (find_index sorted start) sorted.length).Perm req
      rw [hdown, hup]
      exact hbase
    | DIR_RIGHT =>
      show (upSweep sorted (find_index sorted start) sorted.length ++
        downSweep sorted 0 (find_index sorted start)).Perm req
      rw [hdown, hup]
      exact hbase2
  · intro dir
    cases dir with
    | DIR_LEFT =>
      show (downSweep sorted 0 (find_index sorted start) ++
        downSweep sorted (find_index sorted start) sorted.length).Perm req
      rw [hdown, hdown2]
      exact hbase4
    | DIR_RIGHT =>
      show (upSweep sorted (find_index sorted start) sorted.length ++
        upSweep sorted 0 (find_index sorted start)).Perm req
      rw [hup, hup0]
      exact hbase3

/-- Witness for C1 at `req = [7, 2, 5]`, `sorted = [2, 5, 7]`,
`start = 4`. -/
theorem six_algorithms_perm_witness :
    ((([2, 5, 7] : List Int).Perm [7, 2, 5]) ∧
      (∀ x ∈ ([7, 2, 5] : List Int), 0 ≤ x ∧ x < NUM_CYLINDERS) ∧
      ((0 : Int) ≤ 4 ∧ (4 : Int) < NUM_CYLINDERS)) ∧
    ((schedule_fcfs [7, 2, 5] 4).seq.Perm [7, 2, 5] ∧
    (schedule_sstf [7, 2, 5] 4).seq.Perm [7, 2, 5] ∧
    (∀ dir, ∃ pre post, (schedule_scan [2, 5, 7] 4 dir).seq =
      pre ++ [boundaryCyl dir] ++ post ∧ (pre ++ post).Perm [7, 2, 5]) ∧
    (∀ dir, ∃ pre post, (schedule_cscan [2, 5, 7] 4 dir).seq =
      pre ++ wrapCyls dir ++ post ∧ (pre ++ post).Perm [7, 2, 5]) ∧
    (∀ dir, (schedule_look [2, 5, 7] 4 dir).seq.Perm [7, 2, 5]) ∧
    (∀ dir, (schedule_clook [2, 5, 7] 4 dir).seq.Perm [7, 2, 5])) :=
  ⟨⟨by decide, by decide, ⟨by decide, by decide⟩⟩,
    six_algorithms_perm [7, 2, 5] [2, 5, 7] 4 (by decide) (by decide)
      ⟨by decide, by decide⟩⟩

/-! ### The literal SSTF fixture (claim C8) -/

theorem fixtureScan0 : sstfScan [98, 183, 37, 122, 14, 124, 65, 67]
    [false, false, false, false, false, false, false, false] 53 = (12, 6) := by
  show scanLoop [98, 183, 37, 122, 14, 124, 65, 67]
    [false, false, false, false, false, false, false, false] 53
    [0, 1, 2, 3, 4, 5, 6, 7] (1000000000, -1) = (12, 6)
  calc scanLoop [98, 183, 37, 122, 14, 124, 65, 67] [false, false, false, false, false, false, false, false] 53 [0, 1, 2, 3, 4, 5, 6, 7] (1000000000, -1)
      _ = scanLoop [98, 183, 37, 122, 14, 124, 65, 67] [false, false, false, false, false, false, false, false] 53 [1, 2, 3, 4, 5, 6, 7] (45, 0) :=
        scanLoop_cons_better [98, 183, 37, 122, 14, 124, 65, 67] [false, false, false, false, false, false, false, false] 53 0 [1, 2, 3, 4, 5, 6, 7] 1000000000 (-1 : Int) (by decide) (by decide)
      _ = scanLoop [98, 183, 37, 122, 14, 124, 65, 67] [false, false, false, false, false, false, false, false] 53 [2, 3, 4, 5, 6, 7] (45, 0) :=
        scanLoop_cons_worse [98, 183, 37, 122, 14, 124, 65, 67] [false, false, false, false, false, false, false, false] 53 1 [2, 3, 4, 5, 6, 7] 45 0 (by decide) (by decide)
      _ = scanLoop [98, 183, 37, 122, 14, 124, 65, 67] [false, false, false, false, false, false, false, false] 53 [3, 4, 5, 6, 7] (16, 2) :=
        scanLoop_cons_better [98, 183, 37, 122, 14, 124, 65, 67] [false, false, false, false, false, false, false, false] 53 2 [3, 4, 5, 6, 7] 45 0 (by decide) (by decide)
      _ = scanLoop [98, 183, 37, 122, 14, 124, 65, 67] [false, false, false, false, false, false, false, false] 53 [4, 5, 6, 7] (16, 2) :=
        scanLoop_cons_worse [98, 183, 37, 122, 14, 124, 65, 67] [false, false, false, false, false, false, false, false] 53 3 [4, 5, 6, 7] 16 2 (by decide) (by decide)
      _ = scanLoop [98, 183, 37, 122, 14, 124, 65, 67] [false, false, false, false, false, false, false, false] 53 [5, 6, 7] (16, 2) :=
        scanLoop_cons_worse [98, 183, 37, 122, 14, 124, 65, 67] [false, false, false, false, false, false, false, false] 53 4 [5, 6, 7] 16 2 (by decide) (by decide)
      _ = scanLoop [98, 183, 37, 122, 14, 124, 65, 67] [false, false, false, false, false, false, false, false] 53 [6, 7] (16, 2) :=
        scanLoop_cons_worse [98, 183, 37, 122, 14, 124, 65, 67] [false, false, false, false, false, false, false, false] 53 5 [6, 7] 16 2 (by decide) (by decide)
      _ = scanLoop [98, 183, 37, 122, 14, 124, 65, 67] [false, false, false, false, false, false, false, false] 53 [7] (12, 6) :=
        scanLoop_cons_better [98, 183, 37, 122, 14, 124, 65, 67] [false, false, false, false, false, false, false, false] 53 6 [7] 16 2 (by decide) (by decide)
      _ = scanLoop [98, 183, 37, 122, 14, 124, 65, 67] [false, false, false, false, false, false, false, false] 53 [] (12, 6) :=
        scanLoop_cons_worse [98, 183, 37, 122, 14, 124, 65, 67] [false, false, false, false, false, false, false, false] 53 7 [] 12 6 (by decide) (by decide)
      _ = (12, 6) := rfl

theorem fixtureScan1 : sstfScan [98, 183, 37, 122, 14, 124, 65, 67]
    [false, false, false, false, false, false, true, false] 65 = (2, 7) := by
  show scanLoop [98, 183, 37, 122, 14, 124, 65, 67]
    [false, false, false, false, false, false, true, false] 65
    [0, 1, 2, 3, 4, 5, 6, 7] (1000000000, -1) = (2, 7)
  calc scanLoop [98, 183, 37, 122, 14, 124, 65, 67] [false, false, false, false, false, false, true, false] 65 [0, 1, 2, 3, 4, 5, 6, 7] (1000000000, -1)
      _ = scanLoop [98, 183, 37, 122, 14, 124, 65, 67] [false, false, false, false, false, false, true, false] 65 [1, 2, 3, 4, 5, 6, 7] (33, 0) :=
        scanLoop_cons_better [98, 183, 37, 122, 14, 124, 65, 67] [false, false, false, false, false, false, true, false] 65 0 [1, 2, 3, 4, 5, 6, 7] 1000000000 (-1 : Int) (by decide) (by decide)
      _ = scanLoop [98, 183, 37, 122, 14, 124, 65, 67] [false, false, false, false, false, false, true, false] 65 [2, 3, 4, 5, 6, 7] (33, 0) :=
        scanLoop_cons_worse [98, 183, 37, 122, 14, 124, 65, 67] [false, false, false, false, false, false, true, false] 65 1 [2, 3, 4, 5, 6, 7] 33 0 (by decide) (by decide)
      _ = scanLoop [98, 183, 37, 122, 14, 124, 65, 67] [false, false, false, false, false, false, true, false] 65 [3, 4, 5, 6, 7] (28, 2) :=
        scanLoop_cons_better [98, 183, 37, 122, 14, 124, 65, 67] [false, false, false, false, false, false, true, false] 65 2 [3, 4, 5, 6, 7] 33 0 (by decide) (by decide)
      _ = scanLoop [98, 183, 37, 122, 14, 124, 65, 67] [false, false, false, false, false, false, true, false] 65 [4, 5, 6, 7] (28, 2) :=
        scanLoop_cons_worse [98, 183, 37, 122, 14, 124, 65, 67] [false, false, false, false, false, false, true, false] 65 3 [4, 5, 6, 7] 28 2 (by decide) (by decide)
      _ = scanLoop [98, 183, 37, 122, 14, 124, 65, 67] [false, false, false, false, false, false, true, false] 65 [5, 6, 7] (28, 2) :=
        scanLoop_cons_worse [98, 183, 37, 122, 14, 124, 65, 67] [false, false, false, false, false, false, true, false] 65 4 [5, 6, 7] 28 2 (by decide) (by decide)
      _ = scanLoop [98, 183, 37, 122, 14, 124, 65, 67] [false, false, false, false, false, false, true, false] 65 [6, 7] (28, 2) :=
        scanLoop_cons_worse [98, 183, 37, 122, 14, 124, 65, 67] [false, false, false, false, false, false, true, false] 65 5 [6, 7] 28 2 (by decide) (by decide)
      _ = scanLoop [98, 183, 37, 122, 14, 124, 65, 67] [false, false, false, false, false, false, true, false] 65 [7] (28, 2) :=
        scanLoop_cons_visited [98, 183, 37, 122, 14, 124, 65, 67] [false, false, false, false, false, false, true, false] 65 6 [7] 28 (2 : Int) (by decide)
      _ = scanLoop [98, 183, 37, 122, 14, 124, 65, 67] [false, false, false, false, false, false, true, false] 65 [] (2, 7) :=
        scanLoop_cons_better [98, 183, 37, 122, 14, 124, 65, 67] [false, false, false, false, false, false, true, false] 65 7 [] 28 2 (by decide) (by decide)
      _ = (2, 7) := rfl

theorem fixtureScan2 : sstfScan [98, 183, 37, 122, 14, 124, 65, 67]
    [false, false, false, false, false, false, true, true] 67 = (30, 2) := by
  show scanLoop [98, 183, 37, 122, 14, 124, 65, 67]
    [false, false, false, false, false, false, true, true] 67
    [0, 1, 2, 3, 4, 5, 6, 7] (1000000000, -1) = (30, 2)
  calc scanLoop [98, 183, 37, 122, 14, 124, 65, 67] [false, false, false, false, false, false, true, true] 67 [0, 1, 2, 3, 4, 5, 6, 7] (1000000000, -1)
      _ = scanLoop [98, 183, 37, 122, 14, 124, 65, 67] [false, false, false, false, false, false, true, true] 67 [1, 2, 3, 4, 5, 6, 7] (31, 0) :=
        scanLoop_cons_better [98, 183, 37, 122, 14, 124, 65, 67] [false, false, false, false, false, false, true, true] 67 0 [1, 2, 3, 4, 5, 6, 7] 1000000000 (-1 : Int) (by decide) (by decide)
      _ = scanLoop [98, 183, 37, 122, 14, 124, 65, 67] [false, false, false, false, false, false, true, true] 67 [2, 3, 4, 5, 6, 7] (31, 0) :=
        scanLoop_cons_worse [98, 183, 37, 122, 14, 124, 65, 67] [false, false, false, false, false, false, true, true] 67 1 [2, 3, 4, 5, 6, 7] 31 0 (by decide) (by decide)
      _ = scanLoop [98, 183, 37, 122, 14, 124, 65, 67] [false, false, false, false, false, false, true, true] 67 [3, 4, 5, 6, 7] (30, 2) :=
        scanLoop_cons_better [98, 183, 37, 122, 14, 124, 65, 67] [false, false, false, false, false, false, true, true] 67 2 [3, 4, 5, 6, 7] 31 0 (by decide) (by decide)
      _ = scanLoop [98, 183, 37, 122, 14, 124, 65, 67] [false, false, false, false, false, false, true, true] 67 [4, 5, 6, 7] (30, 2) :=
        scanLoop_cons_worse [98, 183, 37, 122, 14, 124, 65, 67] [false, false, false, false, false, false, true, true] 67 3 [4, 5, 6, 7] 30 2 (by decide) (by decide)
      _ = scanLoop [98, 183, 37, 122, 14, 124, 65, 67] [false, false, false, false, false, false, true, true] 67 [5, 6, 7] (30, 2) :=
        scanLoop_cons_worse [98, 183, 37, 122, 14, 124, 65, 67] [false, false, false, false, false, false, true, true] 67 4 [5, 6, 7] 30 2 (by decide) (by decide)
      _ = scanLoop [98, 183, 37, 122, 14, 124, 65, 67] [false, false, false, false, false, false, true, true] 67 [6, 7] (30, 2) :=
        scanLoop_cons_worse [98, 183, 37, 122, 14, 124, 65, 67] [false, false, false, false, false, false, true, true] 67 5 [6, 7] 30 2 (by decide) (by decide)
      _ = scanLoop [98, 183, 37, 122, 14, 124, 65, 67] [false, false, false, false, false, false, true, true] 67 [7] (30, 2) :=
        scanLoop_cons_visited [98, 183, 37, 122, 14, 124, 65, 67] [false, false, false, false, false, false, true, true] 67 6 [7] 30 (2 : Int) (by decide)
      _ = scanLoop [98, 183, 37, 122, 14, 124, 65, 67] [false, false, false, false, false, false, true, true] 67 [] (30, 2) :=
        scanLoop_cons_visited [98, 183, 37, 122, 14, 124, 65, 67] [false, false, false, false, false, false, true, true] 67 7 [] 30 (2 : Int) (by decide)
      _ = (30, 2) := rfl

theorem fixtureScan3 : sstfScan [98, 183, 37, 122, 14, 124, 65, 67]
    [false, false, true, false, false, false, true, true] 37 = (23, 4) := by
  show scanLoop [98, 183, 37, 122, 14, 124, 65, 67]
    [false, false, true, false, false, false, true, true] 37
    [0, 1, 2, 3, 4, 5, 6, 7] (1000000000, -1) = (23, 4)
  calc scanLoop [98, 183, 37, 122, 14, 124, 65, 67] [false, false, true, false, false, false, true, true] 37 [0, 1, 2, 3, 4, 5, 6, 7] (1000000000, -1)
      _ = scanLoop [98, 183, 37, 122, 14, 124, 65, 67] [false, false, true, false, false, false, true, true] 37 [1, 2, 3, 4, 5, 6, 7] (61, 0) :=
        scanLoop_cons_better [98, 183, 37, 122, 14, 124, 65, 67] [false, false, true, false, false, false, true, true] 37 0 [1, 2, 3, 4, 5, 6, 7] 1000000000 (-1 : Int) (by decide) (by decide)
      _ = scanLoop [98, 183, 37, 122, 14, 124, 65, 67] [false, false, true, false, false, false, true, true] 37 [2, 3, 4, 5, 6, 7] (61, 0) :=
        scanLoop_cons_worse [98, 183, 37, 122, 14, 124, 65, 67] [false, false, true, false, false, false, true, true] 37 1 [2, 3, 4, 5, 6, 7] 61 0 (by decide) (by decide)
      _ = scanLoop [98, 183, 37, 122, 14, 124, 65, 67] [false, false, true, false, false, false, true, true] 37 [3, 4, 5, 6, 7] (61, 0) :=
        scanLoop_cons_visited [98, 183, 37, 122, 14, 124, 65, 67] [false, false, true, false, false, false, true, true] 37 2 [3, 4, 5, 6, 7] 61 (0 : Int) (by decide)
      _ = scanLoop [98, 183, 37, 122, 14, 124, 65, 67] [false, false, true, false, false, false, true, true] 37 [4, 5, 6, 7] (61, 0) :=
        scanLoop_cons_worse [98, 183, 37, 122, 14, 124, 65, 67] [false, false, true, false, false, false, true, true] 37 3 [4, 5, 6, 7] 61 0 (by decide) (by decide)
      _ = scanLoop [98, 183, 37, 122, 14, 124, 65, 67] [false, false, true, false, false, false, true, true] 37 [5, 6, 7] (23, 4) :=
        scanLoop_cons_better [98, 183, 37, 122, 14, 124, 65, 67] [false, false, true, false, false, false, true, true] 37 4 [5, 6, 7] 61 0 (by decide) (by decide)
      _ = scanLoop [98, 183, 37, 122, 14, 124, 65, 67] [false, false, true, false, false, false, true, true] 37 [6, 7] (23, 4) :=
        scanLoop_cons_worse [98, 183, 37, 122, 14, 124, 65, 67] [false, false, true, false, false, false, true, true] 37 5 [6, 7] 23 4 (by decide) (by decide)
      _ = scanLoop [98, 183, 37, 122, 14, 124, 65, 67] [false, false, true, false, false, false, true, true] 37 [7] (23, 4) :=
        scanLoop_cons_visited [98, 183, 37, 122, 14, 124, 65, 67] [false, false, true, false, false, false, true, true] 37 6 [7] 23 (4 : Int) (by decide)
      _ = scanLoop [98, 183, 37, 122, 14, 124, 65, 67] [false, false, true, false, false, false, true, true] 37 [] (23, 4) :=
        scanLoop_cons_visited [98, 183, 37, 122, 14, 124, 65, 67] [false, false, true, false, false, false, true, true] 37 7 [] 23 (4 : Int) (by decide)
      _ = (23, 4) := rfl

theorem fixtureScan4 : sstfScan [98, 183, 37, 122, 14, 124, 65, 67]
    [false, false, true, false, true, false, true, true] 14 = (84, 0) := by
  show scanLoop [98, 183, 37, 122, 14, 124, 65, 67]
    [false, false, true, false, true, false, true, true] 14
    [0, 1, 2, 3, 4, 5, 6, 7] (1000000000, -1) = (84, 0)
  calc scanLoop [98, 183, 37, 122, 14, 124, 65, 67] [false, false, true, false, true, false, true, true] 14 [0, 1, 2, 3, 4, 5, 6, 7] (1000000000, -1)
      _ = scanLoop [98, 183, 37, 122, 14, 124, 65, 67] [false, false, true, false, true, false, true, true] 14 [1, 2, 3, 4, 5, 6, 7] (84, 0) :=
        scanLoop_cons_better [98, 183, 37, 122, 14, 124, 65, 67] [false, false, true, false, true, false, true, true] 14 0 [1, 2, 3, 4, 5, 6, 7] 1000000000 (-1 : Int) (by decide) (by decide)
      _ = scanLoop [98, 183, 37, 122, 14, 124, 65, 67] [false, false, true, false, true, false, true, true] 14 [2, 3, 4, 5, 6, 7] (84, 0) :=
        scanLoop_cons_worse [98, 183, 37, 122, 14, 124, 65, 67] [false, false, true, false, true, false, true, true] 14 1 [2, 3, 4, 5, 6, 7] 84 0 (by decide) (by decide)
      _ = scanLoop [98, 183, 37, 122, 14, 124, 65, 67] [false, false, true, false, true, false, true, true] 14 [3, 4, 5, 6, 7] (84, 0) :=
        scanLoop_cons_visited [98, 183, 37, 122, 14, 124, 65, 67] [false, false, true, false, true, false, true, true] 14 2 [3, 4, 5, 6, 7] 84 (0 : Int) (by decide)
      _ = scanLoop [98, 183, 37, 122, 14, 124, 65, 67] [false, false, true, false, true, false, true, true] 14 [4, 5, 6, 7] (84, 0) :=
        scanLoop_cons_worse [98, 183, 37, 122, 14, 124, 65, 67] [false, false, true, false, true, false, true, true] 14 3 [4, 5, 6, 7] 84 0 (by decide) (by decide)
      _ = scanLoop [98, 183, 37, 122, 14, 124, 65, 67] [false, false, true, false, true, false, true, true] 14 [5, 6, 7] (84, 0) :=
        scanLoop_cons_visited [98, 183, 37, 122, 14, 124, 65, 67] [false, false, true, false, true, false, true, true] 14 4 [5, 6, 7] 84 (0 : Int) (by decide)
      _ = scanLoop [98, 183, 37, 122, 14, 124, 65, 67] [false, false, true, false, true, false, true, true] 14 [6, 7] (84, 0) :=
        scanLoop_cons_worse [98, 183, 37, 122, 14, 124, 65, 67] [false, false, true, false, true, false, true, true] 14 5 [6, 7] 84 0 (by decide) (by decide)
      _ = scanLoop [98, 183, 37, 122, 14, 124, 65, 67] [false, false, true, false, true, false, true, true] 14 [7] (84, 0) :=
        scanLoop_cons_visited [98, 183, 37, 122, 14, 124, 65, 67] [false, false, true, false, true, false, true, true] 14 6 [7] 84 (0 : Int) (by decide)
      _ = scanLoop [98, 183, 37, 122, 14, 124, 65, 67] [false, false, true, false, true, false, true, true] 14 [] (84, 0) :=
        scanLoop_cons_visited [98, 183, 37, 122, 14, 124, 65, 67] [false, false, true, false, true, false, true, true] 14 7 [] 84 (0 : Int) (by decide)
      _ = (84, 0) := rfl

theorem fixtureScan5 : sstfScan [98, 183, 37, 122, 14, 124, 65, 67]
    [true, false, true, false, true, false, true, true] 98 = (24, 3) := by
  show scanLoop [98, 183, 37, 122, 14, 124, 65, 67]
    [true, false, true, false, true, false, true, true] 98
    [0, 1, 2, 3, 4, 5, 6, 7] (1000000000, -1) = (24, 3)
  calc scanLoop [98, 183, 37, 122, 14, 124, 65, 67] [true, false, true, false, true, false, true, true] 98 [0, 1, 2, 3, 4, 5, 6, 7] (1000000000, -1)
      _ = scanLoop [98, 183, 37, 122, 14, 124, 65, 67] [true, false, true, false, true, false, true, true] 98 [1, 2, 3, 4, 5, 6, 7] (1000000000, -1) :=
        scanLoop_cons_visited [98, 183, 37, 122, 14, 124, 65, 67] [true, false, true, false, true, false, true, true] 98 0 [1, 2, 3, 4, 5, 6, 7] 1000000000 (-1) (by decide)
      _ = scanLoop [98, 183, 37, 122, 14, 124, 65, 67] [true, false, true, false, true, false, true, true] 98 [2, 3, 4, 5, 6, 7] (85, 1) :=
        scanLoop_cons_better [98, 183, 37, 122, 14, 124, 65, 67] [true, false, true, false, true, false, true, true] 98 1 [2, 3, 4, 5, 6, 7] 1000000000 (-1 : Int) (by decide) (by decide)
      _ = scanLoop [98, 183, 37, 122, 14, 124, 65, 67] [true, false, true, false, true, false, true, true] 98 [3, 4, 5, 6, 7] (85, 1) :=
        scanLoop_cons_visited [98, 183, 37, 122, 14, 124, 65, 67] [true, false, true, false, true, false, true, true] 98 2 [3, 4, 5, 6, 7] 85 (1 : Int) (by decide)
      _ = scanLoop [98, 183, 37, 122, 14, 124, 65, 67] [true, false, true, false, true, false, true, true] 98 [4, 5, 6, 7] (24, 3) :=
        scanLoop_cons_better [98, 183, 37, 122, 14, 124, 65, 67] [true, false, true, false, true, false, true, true] 98 3 [4, 5, 6, 7] 85 1 (by decide) (by decide)
      _ = scanLoop [98, 183, 37, 122, 14, 124, 65, 67] [true, false, true, false, true, false, true, true] 98 [5, 6, 7] (24, 3) :=
        scanLoop_cons_visited [98, 183, 37, 122, 14, 124, 65, 67] [true, false, true, false, true, false, true, true] 98 4 [5, 6, 7] 24 (3 : Int) (by decide)
      _ = scanLoop [98, 183, 37, 122, 14, 124, 65, 67] [true, false, true, false, true, false, true, true] 98 [6, 7] (24, 3) :=
        scanLoop_cons_worse [98, 183, 37, 122, 14, 124, 65, 67] [true, false, true, false, true, false, true, true] 98 5 [6, 7] 24 3 (by decide) (by decide)
      _ = scanLoop [98, 183, 37, 122, 14, 124, 65, 67] [true, false, true, false, true, false, true, true] 98 [7] (24, 3) :=
        scanLoop_cons_visited [98, 183, 37, 122, 14, 124, 65, 67] [true, false, true, false, true, false, true, true] 98 6 [7] 24 (3 : Int) (by decide)
      _ = scanLoop [98, 183, 37, 122, 14, 124, 65, 67] [true, false, true, false, true, false, true, true] 98 [] (24, 3) :=
        scanLoop_cons_visited [98, 183, 37, 122, 14, 124, 65, 67] [true, false, true, false, true, false, true, true] 98 7 [] 24 (3 : Int) (by decide)
      _ = (24, 3) := rfl

theorem fixtureScan6 : sstfScan [98, 183, 37, 122, 14, 124, 65, 67]
    [true, false, true, true, true, false, true, true] 122 = (2, 5) := by
  show scanLoop [98, 183, 37, 122, 14, 124, 65, 67]
    [true, false, true, true, true, false, true, true] 122
    [0, 1, 2, 3, 4, 5, 6, 7] (1000000000, -1) = (2, 5)
  calc scanLoop [98, 183, 37, 122, 14, 124, 65, 67] [true, false, true, true, true, false, true, true] 122 [0, 1, 2, 3, 4, 5, 6, 7] (1000000000, -1)
      _ = scanLoop [98, 183, 37, 122, 14, 124, 65, 67] [true, false, true, true, true, false, true, true] 122 [1, 2, 3, 4, 5, 6, 7] (1000000000, -1) :=
        scanLoop_cons_visited [98, 183, 37, 122, 14, 124, 65, 67] [true, false, true, true, true, false, true, true] 122 0 [1, 2, 3, 4, 5, 6, 7] 1000000000 (-1) (by decide)
      _ = scanLoop [98, 183, 37, 122, 14, 124, 65, 67] [true, false, true, true, true, false, true, true] 122 [2, 3, 4, 5, 6, 7] (61, 1) :=
        scanLoop_cons_better [98, 183, 37, 122, 14, 124, 65, 67] [true, false, true, true, true, false, true, true] 122 1 [2, 3, 4, 5, 6, 7] 1000000000 (-1 : Int) (by decide) (by decide)
      _ = scanLoop [98, 183, 37, 122, 14, 124, 65, 67] [true, false, true, true, true, false, true, true] 122 [3, 4, 5, 6, 7] (61, 1) :=
        scanLoop_cons_visited [98, 183, 37, 122, 14, 124, 65, 67] [true, false, true, true, true, false, true, true] 122 2 [3, 4, 5, 6, 7] 61 (1 : Int) (by decide)
      _ = scanLoop [98, 183, 37, 122, 14, 124, 65, 67] [true, false, true, true, true, false, true, true] 122 [4, 5, 6, 7] (61, 1) :=
        scanLoop_cons_visited [98, 183, 37, 122, 14, 124, 65, 67] [true, false, true, true, true, false, true, true] 122 3 [4, 5, 6, 7] 61 (1 : Int) (by decide)
      _ = scanLoop [98, 183, 37, 122, 14, 124, 65, 67] [true, false, true, true, true, false, true, true] 122 [5, 6, 7] (61, 1) :=
        scanLoop_cons_visited [98, 183, 37, 122, 14, 124, 65, 67] [true, false, true, true, true, false, true, true] 122 4 [5, 6, 7] 61 (1 : Int) (by decide)
      _ = scanLoop [98, 183, 37, 122, 14, 124, 65, 67] [true, false, true, true, true, false, true, true] 122 [6, 7] (2, 5) :=
        scanLoop_cons_better [98, 183, 37, 122, 14, 124, 65, 67] [true, false, true, true, true, false, true, true] 122 5 [6, 7] 61 1 (by decide) (by decide)
      _ = scanLoop [98, 183, 37, 122, 14, 124, 65, 67] [true, false, true, true, true, false, true, true] 122 [7] (2, 5) :=
        scanLoop_cons_visited [98, 183, 37, 122, 14, 124, 65, 67] [true, false, true, true, true, false, true, true] 122 6 [7] 2 (5 : Int) (by decide)
      _ = scanLoop [98, 183, 37, 122, 14, 124, 65, 67] [true, false, true, true, true, false, true, true] 122 [] (2, 5) :=
        scanLoop_cons_visited [98, 183, 37, 122, 14, 124, 65, 67] [true, false, true, true, true, false, true, true] 122 7 [] 2 (5 : Int) (by decide)
      _ = (2, 5) := rfl

theorem fixtureScan7 : sstfScan [98, 183, 37, 122, 14, 124, 65, 67]
    [true, false, true, true, true, true, true, true] 124 = (59, 1) := by
  show scanLoop [98, 183, 37, 122, 14, 124, 65, 67]
    [true, false, true, true, true, true, true, true] 124
    [0, 1, 2, 3, 4, 5, 6, 7] (1000000000, -1) = (59, 1)
  calc scanLoop [98, 183, 37, 122, 14, 124, 65, 67] [true, false, true, true, true, true, true, true] 124 [0, 1, 2, 3, 4, 5, 6, 7] (1000000000, -1)
      _ = scanLoop [98, 183, 37, 122, 14, 124, 65, 67] [true, false, true, true, true, true, true, true] 124 [1, 2, 3, 4, 5, 6, 7] (1000000000, -1) :=
        scanLoop_cons_visited [98, 183, 37, 122, 14, 124, 65, 67] [true, false, true, true, true, true, true, true] 124 0 [1, 2, 3, 4, 5, 6, 7] 1000000000 (-1) (by decide)
      _ = scanLoop [98, 183, 37, 122, 14, 124, 65, 67] [true, false, true, true, true, true, true, true] 124 [2, 3, 4, 5, 6, 7] (59, 1) :=
        scanLoop_cons_better [98, 183, 37, 122, 14, 124, 65, 67] [true, false, true, true, true, true, true, true] 124 1 [2, 3, 4, 5, 6, 7] 1000000000 (-1 : Int) (by decide) (by decide)
      _ = scanLoop [98, 183, 37, 122, 14, 124, 65, 67] [true, false, true, true, true, true, true, true] 124 [3, 4, 5, 6, 7] (59, 1) :=
        scanLoop_cons_visited [98, 183, 37, 122, 14, 124, 65, 67] [true, false, true, true, true, true, true, true] 124 2 [3, 4, 5, 6, 7] 59 (1 : Int) (by decide)
      _ = scanLoop [98, 183, 37, 122, 14, 124, 65, 67] [true, false, true, true, true, true, true, true] 124 [4, 5, 6, 7] (59, 1) :=
        scanLoop_cons_visited [98, 183, 37, 122, 14, 124, 65, 67] [true, false, true, true, true, true, true, true] 124 3 [4, 5, 6, 7] 59 (1 : Int) (by decide)
      _ = scanLoop [98, 183, 37, 122, 14, 124, 65, 67] [true, false, true, true, true, true, true, true] 124 [5, 6, 7] (59, 1) :=
        scanLoop_cons_visited [98, 183, 37, 122, 14, 124, 65, 67] [true, false, true, true, true, true, true, true] 124 4 [5, 6, 7] 59 (1 : Int) (by decide)
      _ = scanLoop [98, 183, 37, 122, 14, 124, 65, 67] [true, false, true, true, true, true, true, true] 124 [6, 7] (59, 1) :=
        scanLoop_cons_visited [98, 183, 37, 122, 14, 124, 65, 67] [true, false, true, true, true, true, true, true] 124 5 [6, 7] 59 (1 : Int) (by decide)
      _ = scanLoop [98, 183, 37, 122, 14, 124, 65, 67] [true, false, true, true, true, true, true, true] 124 [7] (59, 1) :=
        scanLoop_cons_visited [98, 183, 37, 122, 14, 124, 65, 67] [true, false, true, true, true, true, true, true] 124 6 [7] 59 (1 : Int) (by decide)
      _ = scanLoop [98, 183, 37, 122, 14, 124, 65, 67] [true, false, true, true, true, true, true, true] 124 [] (59, 1) :=
        scanLoop_cons_visited [98, 183, 37, 122, 14, 124, 65, 67] [true, false, true, true, true, true, true, true] 124 7 [] 59 (1 : Int) (by decide)
      _ = (59, 1) := rfl

/-- C8: on the spec's literal fixture — requests
`{98, 183, 37, 122, 14, 124, 65, 67}` with start position 53 — SSTF
services the requests in the order `65, 67, 37, 14, 98, 122, 124, 183`
with total head movement 236 (the direction argument is irrelevant to
SSTF, which takes none in the source). -/
theorem sstf_fixture :
    (schedule_sstf [98, 183, 37, 122, 14, 124, 65, 67] 53).seq =
      [65, 67, 37, 14, 98, 122, 124, 183] ∧
    (schedule_sstf [98, 183, 37, 122, 14, 124, 65, 67] 53).movement = 236 := by
  have e1 : sstfLoop [98, 183, 37, 122, 14, 124, 65, 67] 8
      [false, false, false, false, false, false, false, false] 53 =
      65 :: sstfLoop [98, 183, 37, 122, 14, 124, 65, 67] 7
        [false, false, false, false, false, false, true, false] 65 :=
    sstfLoop_succ_eq _ 7 _ _ _ _ fixtureScan0
  have e2 : sstfLoop [98, 183, 37, 122, 14, 124, 65, 67] 7
      [false, false, false, false, false, false, true, false] 65 =
      67 :: sstfLoop [98, 183, 37, 122, 14, 124, 65, 67] 6
        [false, false, false, false, false, false, true, true] 67 :=
    sstfLoop_succ_eq _ 6 _ _ _ _ fixtureScan1
  have e3 : sstfLoop [98, 183, 37, 122, 14, 124, 65, 67] 6
      [false, false, false, false, false, false, true, true] 67 =
      37 :: sstfLoop [98, 183, 37, 122, 14, 124, 65, 67] 5
        [false, false, true, false, false, false, true, true] 37 :=
    sstfLoop_succ_eq _ 5 _ _ _ _ fixtureScan2
  have e4 : sstfLoop [98, 183, 37, 122, 14, 124, 65, 67] 5
      [false, false, true, false, false, false, true, true] 37 =
      14 :: sstfLoop [98, 183, 37, 122, 14, 124, 65, 67] 4
        [false, false, true, false, true, false, true, true] 14 :=
    sstfLoop_succ_eq _ 4 _ _ _ _ fixtureScan3
  have e5 : sstfLoop [98, 183, 37, 122, 14, 124, 65, 67] 4
      [false, false, true, false, true, false, true, true] 14 =
      98 :: sstfLoop [98, 183, 37, 122, 14, 124, 65, 67] 3
        [true, false, true, false, true, false, true, true] 98 :=
    sstfLoop_succ_eq _ 3 _ _ _ _ fixtureScan4
  have e6 : sstfLoop [98, 183, 37, 122, 14, 124, 65, 67] 3
      [true, false, true, false, true, false, true, true] 98 =
      122 :: sstfLoop [98, 183, 37, 122, 14, 124, 65, 67] 2
        [true, false, true, true, true, false, true, true] 122 :=
    sstfLoop_succ_eq _ 2 _ _ _ _ fixtureScan5
  have e7 : sstfLoop [98, 183, 37, 122, 14, 124, 65, 67] 2
      [true, false, true, true, true, false, true, true] 122 =
      124 :: sstfLoop [98, 183, 37, 122, 14, 124, 65, 67] 1
        [true, false, true, true, true, true, true, true] 124 :=
    sstfLoop_succ_eq _ 1 _ _ _ _ fixtureScan6
  have e8 : sstfLoop [98, 183, 37, 122, 14, 124, 65, 67] 1
      [true, false, true, true, true, true, true, true] 124 =
      183 :: sstfLoop [98, 183, 37, 122, 14, 124, 65, 67] 0
        [true, true, true, true, true, true, true, true] 183 :=
    sstfLoop_succ_eq _ 0 _ _ _ _ fixtureScan7
  have hseq : (schedule_sstf [98, 183, 37, 122, 14, 124, 65, 67] 53).seq =
      [65, 67, 37, 14, 98, 122, 124, 183] := by
    show sstfLoop [98, 183, 37, 122, 14, 124, 65, 67] 8
      [false, false, false, false, false, false, false, false] 53 = _
    rw [e1, e2, e3, e4, e5, e6, e7, e8]
    rfl
  refine ⟨hseq, ?_⟩
  show compute_movement
    (sstfLoop [98, 183, 37, 122, 14, 124, 65, 67] 8
      [false, false, false, false, false, false, false, false] 53) 53 = 236
  rw [show sstfLoop [98, 183, 37, 122, 14, 124, 65, 67] 8
      [false, false, false, false, false, false, false, false] 53 =
      [65, 67, 37, 14, 98, 122, 124, 183] from hseq]
  decide

/-! ### No scheduler mutates its input arrays (claim C9) -/

/-- The caller's arrays (`req` in arrival order and its ascending-sorted
copy), made explicit as a store so that the frame behaviour of the C
functions — which receive both arrays by pointer — can be stated. -/
structure Store where
  req : List Int
  sorted : List Int
deriving DecidableEq

/-- Wraps `schedule_fcfs` with the store threaded through: the body stores only
into its local `Result`, never through the `req` pointer, so the store
comes back unchanged. -/
def schedule_fcfs_st (st : Store) (start : Int) : Result × Store :=
  (schedule_fcfs st.req start, st)

/-- Wraps `schedule_sstf` with the store threaded through; its writes target
the local `visited` array and `Result` only. -/
def schedule_sstf_st (st : Store) (start : Int) : Result × Store :=
  (schedule_sstf st.req start, st)

/-- Wraps `schedule_scan` with the store threaded through; it only reads
`sorted`. -/
def schedule_scan_st (st : Store) (start : Int) (dir : Direction) : Result × Store :=
  (schedule_scan st.sorted start dir, st)

/-- Wraps `schedule_cscan` with the store threaded through; it only reads
`sorted`. -/
def schedule_cscan_st (st : Store) (start : Int) (dir : Direction) : Result × Store :=
  (schedule_cscan st.sorted start dir, st)

/-- Wraps `schedule_look` with the store threaded through; it only reads
`sorted`. -/
def schedule_look_st (st : Store) (start : Int) (dir : Direction) : Result × Store :=
  (schedule_look st.sorted start dir, st)

/-- Wraps `schedule_clook` with the store threaded through; it only reads
`sorted`. -/
def schedule_clook_st (st : Store) (start : Int) (dir : Direction) : Result × Store :=
  (schedule_clook st.sorted start dir, st)

/-- The six store-threaded schedulers, as invoked by `main`. -/
def coreAlgs (start : Int) (dir : Direction) : List (Store → Result × Store) :=
  [fun st => schedule_fcfs_st st start,
   fun st => schedule_sstf_st st start,
   fun st => schedule_scan_st st start dir,
   fun st => schedule_cscan_st st start dir,
   fun st => schedule_look_st st start dir,
   fun st => schedule_clook_st st start dir]

/-- Sequential invocation of a list of schedulers, threading the store
from each call into the next. -/
def runAll : List (Store → Result × Store) → Store → List Result × Store
  | [], st => ([], st)
  | f :: fs, st =>
    ((f st).1 :: (runAll fs (f st).2).1, (runAll fs (f st).2).2)

theorem coreAlgs_preserve (start : Int) (dir : Direction)
    (f : Store → Result × Store) (hf : f ∈ coreAlgs start dir) :
    ∀ st : Store, (f st).2 = st := by
  intro st
  simp only [coreAlgs, List.mem_cons, List.not_mem_nil, or_false] at hf
  rcases hf with rfl | rfl | rfl | rfl | rfl | rfl <;> rfl

/-- C9: the schedulers never mutate the input arrays: invoking any
sequence of the six store-threaded schedulers, in any order (with any
repetitions), returns the store exactly as it was, and each invocation's
`Result` equals the one the same scheduler produces on the original
store — so the six algorithms may be invoked in any order with identical
results. -/
theorem schedulers_no_mutation (start : Int) (dir : Direction) (st : Store)
    (fs : List (Store → Result × Store))
    (hfs : ∀ f ∈ fs, f ∈ coreAlgs start dir) :
    (runAll fs st).2 = st ∧
    (runAll fs st).1 = fs.map (fun f => (f st).1) := by
  induction fs generalizing st with
  | nil => exact ⟨rfl, rfl⟩
  | cons f fs ih =>
    have hf : (f st).2 = st :=
      coreAlgs_preserve start dir f (hfs f (List.mem_cons_self f fs)) st
    have hrest := ih st (fun g hg => hfs g (List.mem_cons_of_mem f hg))
    simp only [runAll, hf, List.map_cons]
    exact ⟨hrest.1, by rw [hrest.2]⟩

/-- Witness for C9: the six schedulers run in program order on the store
`⟨[3, 1], [1, 3]⟩` with start 5, direction RIGHT. -/
theorem schedulers_no_mutation_witness :
    (∀ f ∈ coreAlgs 5 Direction.DIR_RIGHT, f ∈ coreAlgs 5 Direction.DIR_RIGHT) ∧
    ((runAll (coreAlgs 5 Direction.DIR_RIGHT) ⟨[3, 1], [1, 3]⟩).2 =
      (⟨[3, 1], [1, 3]⟩ : Store) ∧
    (runAll (coreAlgs 5 Direction.DIR_RIGHT) ⟨[3, 1], [1, 3]⟩).1 =
      (coreAlgs 5 Direction.DIR_RIGHT).map
        (fun f => (f ⟨[3, 1], [1, 3]⟩).1)) :=
  ⟨fun _ hf => hf,
    schedulers_no_mutation 5 Direction.DIR_RIGHT ⟨[3, 1], [1, 3]⟩
      (coreAlgs 5 Direction.DIR_RIGHT) (fun _ hf => hf)⟩

end DiskSched
